import Mathlib

/-!
Shallow embedding of the AWS automation project's orchestration core
(`scripts/terraform_runner.py`) and configuration validation
(`scripts/aws_config.py`), together with theorems settling the spec claims.

Subprocesses are modelled by the data they produce: a `Proc` is the pair of
line sequences the process writes to its stdout and stderr pipes, its exit
code, and the wall-clock moment at which it exits.  Stage-level functions
(`run_terraform`, `destroy_infrastructure`) are modelled over the
`CommandResult` values each stage's command returns, and additionally return
the list of stages whose command was actually spawned (the trace), so that
ordering and fail-fast properties can be stated.
-/

namespace AwsAutomation

/-- `pat` occurs as a contiguous run inside `l`. -/
def listContains (pat : List Char) : List Char → Bool
  | [] => pat.isEmpty
  | c :: rest => pat.isPrefixOf (c :: rest) || listContains pat rest

/-- Python's `pat in s` substring test.  A Python `str` is a sequence of code
points, so string operations are modelled on `String.data`. -/
def strContains (s pat : String) : Bool :=
  listContains pat.data s.data

/-- Python's `s.startswith(pre)`. -/
def pyStartsWith (s pre : String) : Bool :=
  pre.data.isPrefixOf s.data

/-- Python's `s.endswith(suf)`. -/
def pyEndsWith (s suf : String) : Bool :=
  suf.data.reverse.isPrefixOf s.data.reverse

/-- Python's `s.lower()` (ASCII case mapping suffices here: every string this
is applied to has already passed the `[a-zA-Z0-9-]`/trailing-newline regex). -/
def pyLower (s : String) : String :=
  ⟨s.data.map Char.toLower⟩

/-- Python's `s.strip()`: drop leading and trailing whitespace. -/
def pyStrip (s : String) : String :=
  ⟨((s.data.dropWhile Char.isWhitespace).reverse.dropWhile Char.isWhitespace).reverse⟩

/-- Result object built by `run_command` (`returncode`, joined `stdout`, joined `stderr`). -/
structure CommandResult where
  returncode : Int
  stdout : String
  stderr : String
deriving DecidableEq

/-- One stage of the terraform lifecycle (or the standalone destroy command). -/
inductive Stage where
  | init
  | plan
  | showPlan
  | apply
  | output
  | destroy
deriving DecidableEq

/-- A spawned process, modelled by the lines it writes to each pipe, its exit
code, and `exitTime`, the wall-clock second at which it exits.  Stream lines
are the (nonempty) strings `readline` returns; list exhaustion is EOF. -/
structure Proc where
  outLines : List String
  errLines : List String
  exitCode : Int
  exitTime : Nat
deriving DecidableEq

/-- The character `run_command` prints for a stdout line
(`🔄` for `Creating...`/`Modifying...`, `✅` for
`Creation complete`/`Modifications complete`, nothing otherwise). -/
def stdoutEmit (line : String) : Option Char :=
  if strContains line "Creating..." || strContains line "Modifying..." then some '🔄'
  else if strContains line "Creation complete" || strContains line "Modifications complete" then
    some '✅'
  else none

/-- The character `run_command` prints for a stderr line (`❌` for `Error:`). -/
def stderrEmit (line : String) : Option Char :=
  if strContains line "Error:" then some '❌' else none

/-- The `while True` read loop of `run_command`: each iteration reads one line
from stdout and one from stderr (a blocking `readline`, returning `""` only at
EOF), appends each nonempty line to its log, and prints the progress character
its classification calls for.  The loop breaks only when both streams are at
EOF and `process.poll()` is not `None`, i.e. after the process has exited.
Returns (collected stdout lines, collected stderr lines, printed characters).

`drainStderr` is the tail of the loop once stdout is at EOF: each remaining
iteration reads `""` from stdout and one line (or EOF) from stderr. -/
def drainStderr : List String → List String × List Char
  | [] => ([], [])
  | e :: es =>
    let r := drainStderr es
    (e :: r.1, (stderrEmit e).toList ++ r.2)

def readLoop : List String → List String → List String × List String × List Char
  | [], errs =>
    let r := drainStderr errs
    ([], r.1, r.2)
  | o :: os, [] =>
    let r := readLoop os []
    (o :: r.1, r.2.1, (stdoutEmit o).toList ++ r.2.2)
  | o :: os, e :: es =>
    let r := readLoop os es
    (o :: r.1, e :: r.2.1, (stdoutEmit o).toList ++ (stderrEmit e).toList ++ r.2.2)

/-- `process.wait(timeout=timeout)`: raises `TimeoutExpired` only when the
process has not yet exited once the deadline elapses; `run_command` reaches
this call only after its read loop broke, which requires `process.poll()`
to be not `None`, so it is always invoked with `exited = true`. -/
def wait_with_timeout (exited : Bool) (timeout : Nat) (command : List String) :
    Except String Unit :=
  if exited then .ok ()
  else .error ("Command timed out after " ++ toString timeout ++ " seconds: "
    ++ String.intercalate " " command)

/-- `run_command`: spawn the process, run the read loop until both pipes hit
EOF and the process has exited, then `wait` with the timeout (which at that
point cannot expire — the process's `exitTime` is never consulted, because the
read loop blocks until exit with no deadline of its own), and build the
result from the joined logs. -/
def run_command (command : List String) (p : Proc) (timeout : Nat) :
    Except String CommandResult :=
  let collected := readLoop p.outLines p.errLines
  match wait_with_timeout true timeout command with
  | .error e => .error e
  | .ok _ =>
    .ok { returncode := p.exitCode
          stdout := String.join collected.1
          stderr := String.join collected.2.1 }

/-- Message of the `RuntimeError` raised by `check_terraform_installed`. -/
def terraformMissingMsg : String :=
  "Terraform is not installed or not in PATH. Please install Terraform and try again."

/-- The `CommandResult`s the five deploy-stage commands would return, i.e. the
stubbed stage results a deploy run is driven by. -/
structure StageResults where
  init_result : CommandResult
  plan_result : CommandResult
  show_result : CommandResult
  apply_result : CommandResult
  output_result : CommandResult
deriving DecidableEq

/-- Tail of `run_terraform` after the optional show stage: run apply
(fail-fast), then `terraform output -json`; a non-zero exit of the output
command is not an error — the run still returns the JSON string, just `"{}"`
(written here with escapes). `done` is the trace accumulated so far. -/
def deployTail (r : StageResults) (done : List Stage) :
    Except String String × List Stage :=
  if r.apply_result.returncode != 0 then
    (.error "Terraform apply failed", done ++ [Stage.apply])
  else if r.output_result.returncode = 0 then
    (.ok r.output_result.stdout, done ++ [Stage.apply, Stage.output])
  else
    (.ok "\x7b\x7d", done ++ [Stage.apply, Stage.output])

/-- `run_terraform`, driven by the stubbed stage results `r`: check the tool
is installed, then init → plan → (show when plan's stdout lacks
"No changes") → apply → output, raising on the first non-zero exit code with
the fixed message in the source.  Also returns the list of stage commands
actually spawned, in order. -/
def run_terraform (installed : Bool) (r : StageResults) :
    Except String String × List Stage :=
  if !installed then (.error terraformMissingMsg, [])
  else if r.init_result.returncode != 0 then
    (.error "Terraform init failed", [Stage.init])
  else if r.plan_result.returncode != 0 then
    (.error "Terraform plan failed", [Stage.init, Stage.plan])
  else if !strContains r.plan_result.stdout "No changes" then
    if r.show_result.returncode != 0 then
      (.error "Failed to show plan", [Stage.init, Stage.plan, Stage.showPlan])
    else
      deployTail r [Stage.init, Stage.plan, Stage.showPlan]
  else
    deployTail r [Stage.init, Stage.plan]

/-- `destroy_infrastructure`, driven by the stubbed result of the destroy
command: check the tool is installed, run `terraform destroy -auto-approve`,
raise on non-zero exit.  Also returns the trace of spawned commands. -/
def destroy_infrastructure (installed : Bool) (r : CommandResult) :
    Except String Unit × List Stage :=
  if !installed then (.error terraformMissingMsg, [])
  else if r.returncode != 0 then (.error "Terraform destroy failed.", [Stage.destroy])
  else (.ok (), [Stage.destroy])

/-- The traces a deploy run can produce: the canonical order
Init → Plan → (Show) → Apply → CollectOutputs, cut off at the first failing
stage (CollectOutputs always being the last command when reached). -/
def deployTraces : List (List Stage) :=
  [[Stage.init],
   [Stage.init, Stage.plan],
   [Stage.init, Stage.plan, Stage.showPlan],
   [Stage.init, Stage.plan, Stage.showPlan, Stage.apply],
   [Stage.init, Stage.plan, Stage.apply],
   [Stage.init, Stage.plan, Stage.showPlan, Stage.apply, Stage.output],
   [Stage.init, Stage.plan, Stage.apply, Stage.output]]

/-- The four line classes of the claimed output classification. -/
inductive LineClass where
  | progressStart
  | progressDone
  | errorMarker
  | unclassified
deriving DecidableEq

/-- The classification exactly as the claim words it, applied to any line of
the process's combined output regardless of which stream carried it
(spec-side definition, for comparison with `stdoutEmit`/`stderrEmit`). -/
def specClassifyLine (line : String) : LineClass :=
  if strContains line "Creating..." || strContains line "Modifying..." then .progressStart
  else if strContains line "Creation complete" || strContains line "Modifications complete" then
    .progressDone
  else if strContains line "Error:" then .errorMarker
  else .unclassified

/-! ### `aws_config.py`: load-balancer name validation and validated input -/

/-- A character matched by the class `[a-zA-Z0-9-]`. -/
def isLbChar (c : Char) : Bool :=
  ('a' ≤ c && c ≤ 'z') || ('A' ≤ c && c ≤ 'Z') || ('0' ≤ c && c ≤ '9') || c = '-'

/-- Python's `re.match('^[a-zA-Z0-9-]+$', name)` as a boolean: in Python's
`re`, `$` matches at the end of the string **or just before a newline at the
end of the string**, so the pattern also accepts a run of class characters
followed by one trailing `'\n'`. -/
def reMatchLbPattern (name : String) : Bool :=
  let d := name.data
  (!d.isEmpty && d.all isLbChar)
    || (d.getLast? = some '\n' && !d.dropLast.isEmpty && d.dropLast.all isLbChar)

/-- The hard-coded region list of `_validate_lb_name`. -/
def aws_regions : List String :=
  ["us-east-1", "us-east-2", "us-west-1", "us-west-2"]

/-- `AWSConfig._validate_lb_name`: empty or over-32-character names, names
starting or ending with `-`, names failing the regex, and names whose
lower-casing is a listed region are rejected; everything else is accepted. -/
def _validate_lb_name (name : String) : Bool :=
  if name = "" || name.length > 32 then false
  else if pyStartsWith name "-" || pyEndsWith name "-" then false
  else if !reMatchLbPattern name then false
  else if aws_regions.contains (pyLower name) then false
  else true

/-- The validity predicate exactly as the claim words it: length 1–32, only
ASCII letters/digits/hyphens, no leading/trailing hyphen, and not a region
name case-insensitively.  (Spec-side definition, for comparison with
`_validate_lb_name`.) -/
def claimLbValid (name : String) : Bool :=
  (1 ≤ name.length && name.length ≤ 32)
    && name.data.all isLbChar
    && (!pyStartsWith name "-" && !pyEndsWith name "-")
    && !aws_regions.contains (pyLower name)

/-- The validity predicate the code actually decides: as `claimLbValid`, but
the character-class condition is the Python-`$` one, which also admits a
single trailing newline after the run of class characters. -/
def amendedLbValid (name : String) : Bool :=
  (1 ≤ name.length && name.length ≤ 32)
    && reMatchLbPattern name
    && (!pyStartsWith name "-" && !pyEndsWith name "-")
    && !aws_regions.contains (pyLower name)

/-- `AWSConfig._get_validated_input`, over an association list of options and
the stream of user inputs.  The Python body is a `while True` loop, but both
branches of its body `return`, so the loop runs exactly one iteration: read
one input, strip it, return the matching option if the stripped input is a
key, otherwise announce and return the default key's option.  `none` models
`EOFError` (no input left) or `KeyError` (default key absent).  The returned
list is the input stream not consumed. -/
def _get_validated_input {α : Type} (options : List (String × α)) (dflt : String)
    (inputs : List String) : Option (α × List String) :=
  match inputs with
  | [] => none
  | choiceRaw :: rest =>
    let choice := pyStrip choiceRaw
    match options.lookup choice with
    | some v => some (v, rest)
    | none =>
      match options.lookup dflt with
      | some d => some (d, rest)
      | none => none

/-! ### Helper lemmas -/

theorem drainStderr_fst (es : List String) : (drainStderr es).1 = es := by
  induction es with
  | nil => rfl
  | cons e es ih => simp [drainStderr, ih]

theorem drainStderr_emit (es : List String) :
    (drainStderr es).2 = es.filterMap stderrEmit := by
  induction es with
  | nil => rfl
  | cons e es ih =>
    cases h : stderrEmit e <;> simp [drainStderr, List.filterMap_cons, h, ih]

theorem readLoop_logs (os : List String) :
    ∀ es, (readLoop os es).1 = os ∧ (readLoop os es).2.1 = es := by
  induction os with
  | nil => intro es; simp [readLoop, drainStderr_fst]
  | cons o os ih =>
    intro es
    cases es with
    | nil =>
      obtain ⟨h1, h2⟩ := ih []
      simp [readLoop, h1, h2]
    | cons e es =>
      obtain ⟨h1, h2⟩ := ih es
      simp [readLoop, h1, h2]

theorem readLoop_emit_length (os : List String) :
    ∀ es, (readLoop os es).2.2.length
      = (os.filterMap stdoutEmit).length + (es.filterMap stderrEmit).length := by
  induction os with
  | nil => intro es; simp [readLoop, drainStderr_emit]
  | cons o os ih =>
    intro es
    cases es with
    | nil =>
      cases h : stdoutEmit o <;>
        simp [readLoop, List.filterMap_cons, h, ih []]
    | cons e es =>
      cases h : stdoutEmit o <;> cases h2 : stderrEmit e <;>
        simp [readLoop, List.filterMap_cons, h, h2, ih es] <;> omega

/-! ### Claim theorems -/

/-- **C7.** Every line the process writes to stdout appears in the captured
stdout log and every stderr line in the stderr log, each log preserving the
per-stream order with no line dropped or duplicated, and `run_command`
returns the `CommandResult` joining exactly those logs. -/
theorem run_command_captures_streams (command : List String) (p : Proc) (timeout : Nat) :
    (readLoop p.outLines p.errLines).1 = p.outLines
  ∧ (readLoop p.outLines p.errLines).2.1 = p.errLines
  ∧ run_command command p timeout
      = .ok { returncode := p.exitCode
              stdout := String.join p.outLines
              stderr := String.join p.errLines } := by
  obtain ⟨h1, h2⟩ := readLoop_logs p.outLines p.errLines
  refine ⟨h1, h2, ?_⟩
  simp [run_command, wait_with_timeout, h1, h2]

/-- **C8 counterexample.** The line `"Error: boom\n"` of the combined output
is classified `error-marker` by the claim's stream-agnostic classification,
so the claim demands exactly one character emission for it — but when it
arrives on stdout the read loop emits nothing: the `Error:` check is applied
to stderr lines only. -/
theorem combined_classification_counterexample :
    specClassifyLine "Error: boom\n" = LineClass.errorMarker
  ∧ (readLoop ["Error: boom\n"] []).2.2 = [] := by decide

/-- **C8 (amended).** Classification is per stream: a stdout line triggers
exactly one emission iff it matches a progress substring, a stderr line
iff it contains `"Error:"` (at most one character each, via `if`/`elif`),
and the loop's emissions are exactly one per classified line of either
stream, none dropped or repeated. -/
theorem per_stream_classification (outs errs : List String) :
    (∀ line, (stdoutEmit line).toList.length
        = (if strContains line "Creating..." || strContains line "Modifying..."
              || strContains line "Creation complete"
              || strContains line "Modifications complete" then 1 else 0))
  ∧ (∀ line, (stderrEmit line).toList.length
        = (if strContains line "Error:" then 1 else 0))
  ∧ (readLoop outs errs).2.2.length
      = (outs.filterMap stdoutEmit).length + (errs.filterMap stderrEmit).length := by
  refine ⟨?_, ?_, readLoop_emit_length outs errs⟩
  · intro line
    unfold stdoutEmit
    split_ifs <;> simp_all
  · intro line
    unfold stderrEmit
    split_ifs <;> simp_all

/-- **C2 (code bug).** `run_command` never produces a timeout failure: its
read loop blocks until the process has exited, so `process.wait(timeout)` is
only ever reached after exit and the `TimeoutExpired` handler is dead code.
In particular a process that exits only at second 301 under a 300-second
timeout still yields a normal `CommandResult` instead of the claimed
forced termination with a timeout error. -/
theorem run_command_never_times_out :
    (∀ (command : List String) (p : Proc) (timeout : Nat),
        (run_command command p timeout).isOk = true)
  ∧ run_command ["terraform", "apply", "-auto-approve"]
      { outLines := [], errLines := [], exitCode := 0, exitTime := 301 } 300
      = .ok { returncode := 0, stdout := "", stderr := "" }
  ∧ (300 : Nat)
      < ({ outLines := [], errLines := [], exitCode := 0, exitTime := 301 } : Proc).exitTime := by
  refine ⟨?_, rfl, by decide⟩
  intro command p timeout
  simp [run_command, wait_with_timeout, Except.isOk, Except.toBool]

/-- **C6.** If the terraform executable is not resolvable on the path, both
entry points fail with the tool-not-found message and spawn no stage
command at all (empty trace). -/
theorem tool_not_found_before_spawn (r : StageResults) (d : CommandResult) :
    run_terraform false r = (.error terraformMissingMsg, [])
  ∧ destroy_infrastructure false d = (.error terraformMissingMsg, []) :=
  ⟨rfl, rfl⟩

/-- **C10.** `_get_validated_input` consumes exactly one input and returns on
the first loop iteration: the option keyed by the stripped input when that is
a key, and otherwise the default key's option — it never re-prompts. -/
theorem get_validated_input_single_prompt {α : Type} (options : List (String × α))
    (dflt : String) (d : α) (i : String) (rest : List String)
    (hd : options.lookup dflt = some d) :
    _get_validated_input options dflt (i :: rest)
      = some ((options.lookup (pyStrip i)).getD d, rest) := by
  unfold _get_validated_input
  cases h : options.lookup (pyStrip i) <;> simp [h, hd]

/-- Witness for C10: with options `{"1" ↦ 10, "2" ↦ 20}`, default `"1"` and
input stream `["9 ", "later"]`, the invalid choice `"9"` yields the default
option `10` with only the first input consumed. -/
theorem get_validated_input_single_prompt_witness :
    _get_validated_input [("1", 10), ("2", 20)] "1" ["9 ", "later"]
      = some (10, ["later"]) :=
  (get_validated_input_single_prompt [("1", 10), ("2", 20)] "1" 10 "9 " ["later"]
    rfl).trans (by decide)

/-- **C1.** A deploy run spawns stages only in the fixed order
Init → Plan → (Show) → Apply → CollectOutputs, stops at the first stage
exiting non-zero (CollectOutputs excepted) with a failure naming that stage
and no later stage spawned — in particular a failing Init stops the run at
`[Init]` — and runs the whole sequence when every stage exits zero. -/
theorem run_terraform_stage_order (r : StageResults) :
    (run_terraform true r).2 ∈ deployTraces
  ∧ (r.init_result.returncode ≠ 0 →
      run_terraform true r = (.error "Terraform init failed", [Stage.init]))
  ∧ (r.init_result.returncode = 0 → r.plan_result.returncode ≠ 0 →
      run_terraform true r = (.error "Terraform plan failed", [Stage.init, Stage.plan]))
  ∧ (r.init_result.returncode = 0 → r.plan_result.returncode = 0 →
      strContains r.plan_result.stdout "No changes" = false →
      r.show_result.returncode ≠ 0 →
      run_terraform true r
        = (.error "Failed to show plan", [Stage.init, Stage.plan, Stage.showPlan]))
  ∧ (r.init_result.returncode = 0 → r.plan_result.returncode = 0 →
      strContains r.plan_result.stdout "No changes" = false →
      r.show_result.returncode = 0 → r.apply_result.returncode ≠ 0 →
      run_terraform true r
        = (.error "Terraform apply failed",
            [Stage.init, Stage.plan, Stage.showPlan, Stage.apply]))
  ∧ (r.init_result.returncode = 0 → r.plan_result.returncode = 0 →
      strContains r.plan_result.stdout "No changes" = true →
      r.apply_result.returncode ≠ 0 →
      run_terraform true r
        = (.error "Terraform apply failed", [Stage.init, Stage.plan, Stage.apply]))
  ∧ (r.init_result.returncode = 0 → r.plan_result.returncode = 0 →
      strContains r.plan_result.stdout "No changes" = false →
      r.show_result.returncode = 0 → r.apply_result.returncode = 0 →
      (run_terraform true r).2
        = [Stage.init, Stage.plan, Stage.showPlan, Stage.apply, Stage.output])
  ∧ (r.init_result.returncode = 0 → r.plan_result.returncode = 0 →
      strContains r.plan_result.stdout "No changes" = true →
      r.apply_result.returncode = 0 →
      (run_terraform true r).2 = [Stage.init, Stage.plan, Stage.apply, Stage.output])
  ∧ (strContains "Terraform init failed" "init" = true
      ∧ strContains "Terraform plan failed" "plan" = true
      ∧ strContains "Failed to show plan" "show" = true
      ∧ strContains "Terraform apply failed" "apply" = true) := by
  refine ⟨?_, ?_, ?_, ?_, ?_, ?_, ?_, ?_, by decide⟩
  · unfold run_terraform deployTail
    split_ifs <;> simp_all [deployTraces]
  · intro h1
    simp [run_terraform, h1]
  · intro h1 h2
    simp [run_terraform, h1, h2]
  · intro h1 h2 h3 h4
    simp [run_terraform, h1, h2, h3, h4]
  · intro h1 h2 h3 h4 h5
    simp [run_terraform, deployTail, h1, h2, h3, h4, h5]
  · intro h1 h2 h3 h4
    simp [run_terraform, deployTail, h1, h2, h3, h4]
  · intro h1 h2 h3 h4 h5
    simp [run_terraform, deployTail, h1, h2, h3, h4, h5]
    split_ifs <;> simp_all
  · intro h1 h2 h3 h4
    simp [run_terraform, deployTail, h1, h2, h3, h4]
    split_ifs <;> simp_all

/-- Witness for C1: a run whose Init command exits 1 spawns only Init and
fails with the init message. -/
theorem run_terraform_stage_order_witness :
    run_terraform true
        (⟨⟨1, "", "init error"⟩, ⟨0, "", ""⟩, ⟨0, "", ""⟩, ⟨0, "", ""⟩, ⟨0, "", ""⟩⟩
          : StageResults)
      = (.error "Terraform init failed", [Stage.init]) :=
  (run_terraform_stage_order
      ⟨⟨1, "", "init error"⟩, ⟨0, "", ""⟩, ⟨0, "", ""⟩, ⟨0, "", ""⟩, ⟨0, "", ""⟩⟩).2.1
    (by decide)

/-- **C3.** Once Init, Plan, (Show if run) and Apply have all exited zero the
run is a success whatever the output command does: its stdout (the JSON text
of the outputs mapping) on exit zero, the empty mapping's text otherwise —
never a failure. -/
theorem run_terraform_output_leniency (r : StageResults)
    (hInit : r.init_result.returncode = 0) (hPlan : r.plan_result.returncode = 0)
    (hShow : strContains r.plan_result.stdout "No changes" = false →
      r.show_result.returncode = 0)
    (hApply : r.apply_result.returncode = 0) :
    (run_terraform true r).1
      = .ok (if r.output_result.returncode = 0 then r.output_result.stdout
          else "\x7b\x7d") := by
  unfold run_terraform deployTail
  cases hNC : strContains r.plan_result.stdout "No changes" with
  | false =>
    simp [hInit, hPlan, hNC, hShow hNC, hApply]
    split_ifs <;> simp_all
  | true =>
    simp [hInit, hPlan, hNC, hApply]
    split_ifs <;> simp_all

/-- Witness for C3: all deployment stages exit zero but the output command
exits 1, and the run still succeeds carrying the empty mapping. -/
theorem run_terraform_output_leniency_witness :
    (run_terraform true
        (⟨⟨0, "", ""⟩, ⟨0, "Plan: 2 to add", ""⟩, ⟨0, "", ""⟩, ⟨0, "", ""⟩,
          ⟨1, "", "no outputs"⟩⟩ : StageResults)).1
      = .ok "\x7b\x7d" := by
  have h := run_terraform_output_leniency
    ⟨⟨0, "", ""⟩, ⟨0, "Plan: 2 to add", ""⟩, ⟨0, "", ""⟩, ⟨0, "", ""⟩, ⟨1, "", "no outputs"⟩⟩
    rfl rfl (fun _ => rfl) rfl
  simpa using h

/-- **C4.** When Plan exits zero, the Show stage is spawned exactly when the
substring "No changes" is absent from Plan's stdout; when it is present the
run goes directly Plan → Apply. -/
theorem run_terraform_plan_short_circuit (r : StageResults)
    (hInit : r.init_result.returncode = 0) (hPlan : r.plan_result.returncode = 0) :
    (Stage.showPlan ∈ (run_terraform true r).2
        ↔ strContains r.plan_result.stdout "No changes" = false)
  ∧ (strContains r.plan_result.stdout "No changes" = true →
      (run_terraform true r).2.take 3 = [Stage.init, Stage.plan, Stage.apply]) := by
  unfold run_terraform deployTail
  cases hNC : strContains r.plan_result.stdout "No changes" with
  | false =>
    simp only [hInit, hPlan, hNC]
    split_ifs <;> simp_all
  | true =>
    simp only [hInit, hPlan, hNC]
    split_ifs <;> simp_all

/-- Witness for C4: with "No changes" in Plan's stdout and all stages
succeeding, the first three spawned stages are Init, Plan, Apply (no Show). -/
theorem run_terraform_plan_short_circuit_witness :
    (run_terraform true
        (⟨⟨0, "", ""⟩, ⟨0, "No changes. Infrastructure is up-to-date.", ""⟩,
          ⟨0, "", ""⟩, ⟨0, "", ""⟩, ⟨0, "ok", ""⟩⟩ : StageResults)).2.take 3
      = [Stage.init, Stage.plan, Stage.apply] :=
  (run_terraform_plan_short_circuit
      ⟨⟨0, "", ""⟩, ⟨0, "No changes. Infrastructure is up-to-date.", ""⟩,
        ⟨0, "", ""⟩, ⟨0, "", ""⟩, ⟨0, "ok", ""⟩⟩ rfl rfl).2
    (by decide)

/-- **C5 counterexample.** With Init exiting 2 and stderr "boom", the failure
value the run produces is the bare string "Terraform init failed": it names
the stage but carries neither the exit code nor the captured stderr, contrary
to the claim. -/
theorem stage_failure_detail_counterexample :
    run_terraform true
        (⟨⟨2, "", "boom"⟩, ⟨0, "", ""⟩, ⟨0, "", ""⟩, ⟨0, "", ""⟩, ⟨0, "", ""⟩⟩
          : StageResults)
      = (.error "Terraform init failed", [Stage.init])
  ∧ strContains "Terraform init failed" "boom" = false
  ∧ strContains "Terraform init failed" "2" = false :=
  ⟨rfl, by decide, by decide⟩

/-- **C5 (amended).** A stage failing with non-zero exit (other than
CollectOutputs) makes the run fail with a fixed message naming that stage —
the same message whatever the exit code and stderr, which are only written to
the log, not carried in the failure value. -/
theorem stage_failure_message_amended (r : StageResults) :
    (r.init_result.returncode ≠ 0 →
      (run_terraform true r).1 = .error "Terraform init failed")
  ∧ (r.init_result.returncode = 0 → r.plan_result.returncode ≠ 0 →
      (run_terraform true r).1 = .error "Terraform plan failed")
  ∧ (r.init_result.returncode = 0 → r.plan_result.returncode = 0 →
      strContains r.plan_result.stdout "No changes" = false →
      r.show_result.returncode ≠ 0 →
      (run_terraform true r).1 = .error "Failed to show plan")
  ∧ (r.init_result.returncode = 0 → r.plan_result.returncode = 0 →
      (strContains r.plan_result.stdout "No changes" = true
        ∨ r.show_result.returncode = 0) →
      r.apply_result.returncode ≠ 0 →
      (run_terraform true r).1 = .error "Terraform apply failed")
  ∧ (strContains "Terraform init failed" "init" = true
      ∧ strContains "Terraform plan failed" "plan" = true
      ∧ strContains "Failed to show plan" "show" = true
      ∧ strContains "Terraform apply failed" "apply" = true) := by
  refine ⟨?_, ?_, ?_, ?_, by decide⟩
  · intro h1
    simp [run_terraform, h1]
  · intro h1 h2
    simp [run_terraform, h1, h2]
  · intro h1 h2 h3 h4
    simp [run_terraform, h1, h2, h3, h4]
  · intro h1 h2 h3 h4
    cases h3 with
    | inl hNC => simp [run_terraform, deployTail, h1, h2, hNC, h4]
    | inr hS =>
      cases hNC : strContains r.plan_result.stdout "No changes" with
      | false => simp [run_terraform, deployTail, h1, h2, hNC, hS, h4]
      | true => simp [run_terraform, deployTail, h1, h2, hNC, h4]

/-- Witness for C5 (amended): an Init exiting 3 with stderr
"permission denied" produces exactly the fixed init-failure message. -/
theorem stage_failure_message_amended_witness :
    (run_terraform true
        (⟨⟨3, "", "permission denied"⟩, ⟨0, "", ""⟩, ⟨0, "", ""⟩, ⟨0, "", ""⟩,
          ⟨0, "", ""⟩⟩ : StageResults)).1
      = .error "Terraform init failed" :=
  (stage_failure_message_amended
      ⟨⟨3, "", "permission denied"⟩, ⟨0, "", ""⟩, ⟨0, "", ""⟩, ⟨0, "", ""⟩, ⟨0, "", ""⟩⟩).1
    (by decide)

/-- **C9 counterexample.** The validator accepts `"my-lb\n"`, which contains
a newline and so is rejected by the claimed character-set condition: Python's
`re.match('^[a-zA-Z0-9-]+$', ...)` lets `$` match just before a trailing
newline, so the claimed "accepts iff" equivalence fails. -/
theorem lb_name_newline_counterexample :
    _validate_lb_name "my-lb\n" = true ∧ claimLbValid "my-lb\n" = false := by decide

/-- **C9 (amended).** The validator accepts a name iff it has length 1–32,
does not start or end with a hyphen, is not case-insensitively a listed
region name, and matches the Python pattern: all characters ASCII
letters/digits/hyphens, or all such characters followed by one trailing
newline.  The claim's concrete examples all behave as stated. -/
theorem lb_name_validator_amended :
    (∀ name, _validate_lb_name name = amendedLbValid name)
  ∧ _validate_lb_name "my-lb" = true
  ∧ _validate_lb_name "-bad" = false
  ∧ _validate_lb_name "bad-" = false
  ∧ _validate_lb_name "" = false
  ∧ _validate_lb_name "aaaaaaaaaaaaaaaaaaaaaaaaaaaaaaaaa" = false
  ∧ _validate_lb_name "us-east-2" = false
  ∧ _validate_lb_name "US-East-2" = false := by
  refine ⟨?_, by decide, by decide, by decide, by decide, by decide, by decide, by decide⟩
  intro name
  by_cases h0 : name = ""
  · subst h0; rfl
  · have h1 : 1 ≤ name.length := by
      cases name with
      | mk data =>
        cases data with
        | nil => exact absurd rfl h0
        | cons c cs => simp [String.length]
    unfold _validate_lb_name amendedLbValid
    by_cases h32 : name.length > 32
    · have h32' : ¬name.length ≤ 32 := Nat.not_le.mpr h32
      simp [h0, h32, h32']
    · have h32' : name.length ≤ 32 := Nat.le_of_not_lt h32
      cases hs : pyStartsWith name "-" <;>
        cases he : pyEndsWith name "-" <;>
          cases hre : reMatchLbPattern name <;>
            cases hreg : aws_regions.contains (pyLower name) <;>
              simp [h0, h32, h32', h1, hs, he, hre, hreg]

end AwsAutomation
